import Mathlib

/-!
Verification development for the `etl_dashboard_template` repository.

The embedding below translates the data-pipeline module
(`src/pipeline/data_pipeline.py`) and the pydantic record model
(`src/models/model.py`) into Lean.  Tabular data is modelled as lists of
rows, a row being an association list from column names to scalar values.
Pydantic's per-field coercion is modelled by explicit check functions that
either return the coerced value or a diagnostic carrying the offending
value's rendering and a message; Python floats are modelled as exact
integer fractions (`PyFloat`) and datetimes as abstract `Nat` timestamps,
since no pipeline behaviour depends on float rounding or calendar detail.
-/

deriving instance DecidableEq for Except

/-- A scalar cell value of the raw table: Python int, float, str, datetime
or None.  Floats are modelled exactly as `num / den`; datetimes as abstract
timestamps. -/
inductive Value where
  | vInt (n : Int)
  | vFloat (num : Int) (den : Nat)
  | vStr (s : String)
  | vDate (t : Nat)
  | vNone
  deriving DecidableEq

/-- A row of a table: mapping from column name to scalar value, as produced
by `row.to_dict()` in `_validate_inputs`. -/
abbrev Row := List (String × Value)

/-- A pandas-style dataframe: a column list plus the row records. -/
structure DataFrame where
  columns : List String
  rows : List Row
  deriving DecidableEq

/-- Decimal digit character for rendering numbers. -/
def digitChar (n : Nat) : Char := Char.ofNat (48 + n)

/-- Digit accumulator for `natToString`; the first argument is structural
fuel bounding the number of divisions. -/
def natDigitsGo : Nat → Nat → List Char → List Char
  | _, 0, acc => acc
  | 0, m + 1, acc => digitChar ((m + 1) % 10) :: acc
  | fuel + 1, m + 1, acc => natDigitsGo fuel ((m + 1) / 10) (digitChar ((m + 1) % 10) :: acc)

/-- Decimal rendering of a natural number (kernel-reducible model of
Python `str`). -/
def natToString (n : Nat) : String :=
  match n with
  | 0 => "0"
  | m + 1 => String.mk (natDigitsGo (m + 1) (m + 1) [])

/-- Decimal rendering of an integer. -/
def intToString : Int → String
  | Int.ofNat n => natToString n
  | Int.negSucc n => "-" ++ natToString (n + 1)

/-- Python `str()` of a scalar value, used when formatting diagnostics. -/
def pyStr : Value → String
  | Value.vInt n => intToString n
  | Value.vFloat num den => intToString num ++ "/" ++ natToString den
  | Value.vStr s => s
  | Value.vDate t => "datetime(" ++ natToString t ++ ")"
  | Value.vNone => "None"

/-- `str.join`-style concatenation with a separator, modelling
`".\n".join(output_errors)`. -/
def joinSep (sep : String) : List String → String
  | [] => ""
  | [x] => x
  | x :: xs => x ++ sep ++ joinSep sep xs

/-- Python `str()` of a row dict (rendering used when pydantic reports the
whole input for a missing required field). -/
def pyStrRow (r : Row) : String :=
  "\x7b" ++ joinSep ", " (r.map (fun p => p.1 ++ ": " ++ pyStr p.2)) ++ "\x7d"

/-- Value of a digit character, if any. -/
def digitVal? (c : Char) : Option Nat :=
  if 48 ≤ c.toNat ∧ c.toNat ≤ 57 then some (c.toNat - 48) else none

/-- Parse an unsigned decimal digit run. -/
def natFromCharsGo : Nat → List Char → Option Nat
  | acc, [] => some acc
  | acc, c :: cs =>
      match digitVal? c with
      | some d => natFromCharsGo (acc * 10 + d) cs
      | none => none

/-- Parse a non-empty unsigned decimal digit run. -/
def natFromChars? : List Char → Option Nat
  | [] => none
  | cs => natFromCharsGo 0 cs

/-- Parse a Python-style integer literal, as pydantic does when coercing a
string into an `int` field. -/
def intFromString? (s : String) : Option Int :=
  match s.data with
  | [] => none
  | c :: cs =>
      if c = '-' then (natFromChars? cs).map (fun n => -(n : Int))
      else (natFromChars? (c :: cs)).map (fun n => (n : Int))

/-- An exact model of a Python float: an integer fraction.  Only parsing
and equality are ever needed by the pipeline. -/
structure PyFloat where
  num : Int
  den : Nat
  deriving DecidableEq

/-- Split a character list on a separator character (model of
`str.split`). -/
def splitOnChar (c : Char) : List Char → List (List Char)
  | [] => [[]]
  | x :: xs =>
      match splitOnChar c xs with
      | [] => [[]]
      | y :: ys => if x = c then [] :: y :: ys else (x :: y) :: ys

/-- Parse an unsigned decimal literal, with an optional fractional part,
into an exact fraction. -/
def decimalFromChars? (cs : List Char) : Option PyFloat :=
  match splitOnChar '.' cs with
  | [a] => (natFromChars? a).map (fun n => ⟨n, 1⟩)
  | [a, b] =>
      if a = [] ∧ b = [] then none
      else
        match (if a = [] then some 0 else natFromChars? a),
              (if b = [] then some 0 else natFromChars? b) with
        | some ia, some ib => some ⟨ia * (10 ^ b.length) + ib, 10 ^ b.length⟩
        | _, _ => none
  | _ => none

/-- Parse a Python-style float literal, as pydantic does when coercing a
string into a `float` field. -/
def floatFromString? (s : String) : Option PyFloat :=
  match s.data with
  | [] => none
  | c :: cs =>
      if c = '-' then (decimalFromChars? cs).map (fun f => ⟨-f.num, f.den⟩)
      else decimalFromChars? (c :: cs)

/-- The serialized form of a datetime in `model_dump(mode='json')` output;
the ISO rendering of the abstract timestamp is modelled opaquely. -/
def isoString (t : Nat) : String := "iso:" ++ natToString t

/-- Parse a datetime string: either the modelled serialized form or a bare
timestamp digit run (the datetime grammar itself is abstracted). -/
def datetimeFromString? (s : String) : Option Nat :=
  match s.data with
  | 'i' :: 's' :: 'o' :: ':' :: rest => natFromChars? rest
  | cs => natFromChars? cs

/-- One entry of pydantic's `e.errors()`: the failing field, the rendered
offending input (`error['input']`) and the message (`error['msg']`). -/
structure FieldError where
  loc : String
  input : String
  msg : String
  deriving DecidableEq

/-- Dictionary lookup on a row, as `row.to_dict()[k]`. -/
def rowGet : Row → String → Option Value
  | [], _ => none
  | (k2, v) :: rest, k => if k2 = k then some v else rowGet rest k

/-- The coerced record of `models/model.py`: `class Data(BaseModel)` with
`var_1 : int`, `var_2 : float`, `date_var : datetime`. -/
structure Data where
  var_1 : Int
  var_2 : PyFloat
  date_var : Nat
  deriving DecidableEq

/-- Pydantic coercion of one value into an `int` field. -/
def checkIntField (k : String) (r : Row) : Except FieldError Int :=
  match rowGet r k with
  | none => Except.error ⟨k, pyStrRow r, "Field required"⟩
  | some (Value.vInt n) => Except.ok n
  | some (Value.vFloat num den) =>
      if den ≠ 0 ∧ num % (den : Int) = 0 then Except.ok (num / den)
      else Except.error ⟨k, pyStr (Value.vFloat num den),
        "Input should be a valid integer, got a number with a fractional part"⟩
  | some (Value.vStr s) =>
      match intFromString? s with
      | some n => Except.ok n
      | none => Except.error ⟨k, s,
          "Input should be a valid integer, unable to parse string as an integer"⟩
  | some v => Except.error ⟨k, pyStr v, "Input should be a valid integer"⟩

/-- Pydantic coercion of one value into a `float` field. -/
def checkFloatField (k : String) (r : Row) : Except FieldError PyFloat :=
  match rowGet r k with
  | none => Except.error ⟨k, pyStrRow r, "Field required"⟩
  | some (Value.vFloat num den) => Except.ok ⟨num, den⟩
  | some (Value.vInt n) => Except.ok ⟨n, 1⟩
  | some (Value.vStr s) =>
      match floatFromString? s with
      | some f => Except.ok f
      | none => Except.error ⟨k, s,
          "Input should be a valid number, unable to parse string as a number"⟩
  | some v => Except.error ⟨k, pyStr v, "Input should be a valid number"⟩

/-- Pydantic coercion of one value into a `datetime` field. -/
def checkDateField (k : String) (r : Row) : Except FieldError Nat :=
  match rowGet r k with
  | none => Except.error ⟨k, pyStrRow r, "Field required"⟩
  | some (Value.vDate t) => Except.ok t
  | some (Value.vInt (Int.ofNat m)) => Except.ok m
  | some (Value.vStr s) =>
      match datetimeFromString? s with
      | some t => Except.ok t
      | none => Except.error ⟨k, s, "Input should be a valid datetime"⟩
  | some v => Except.error ⟨k, pyStr v, "Input should be a valid datetime"⟩

/-- The diagnostics contributed by one field check. -/
def errsOf {α : Type} : Except FieldError α → List FieldError
  | Except.ok _ => []
  | Except.error e => [e]

/-- `Data(**row.to_dict())`: check every schema field in declaration order
(`var_1`, `var_2`, `date_var`), collecting every failing field; succeed
with the coerced record only when all checks pass (pydantic raises
`ValidationError` carrying the full error list otherwise). -/
def validateData (r : Row) : Except (List FieldError) Data :=
  match checkIntField "var_1" r, checkFloatField "var_2" r, checkDateField "date_var" r with
  | Except.ok a, Except.ok b, Except.ok c => Except.ok ⟨a, b, c⟩
  | t1, t2, t3 => Except.error (errsOf t1 ++ errsOf t2 ++ errsOf t3)

/-- `record.model_dump(mode='json')`: the validated row dict, with the
datetime serialized to its string form. -/
def modelDumpJson (d : Data) : Row :=
  [("var_1", Value.vInt d.var_1),
   ("var_2", Value.vFloat d.var_2.num d.var_2.den),
   ("date_var", Value.vStr (isoString d.date_var))]

example : validateData [("var_1", Value.vInt 1), ("var_2", Value.vInt 2),
    ("date_var", Value.vDate 0)] = Except.ok ⟨1, ⟨2, 1⟩, 0⟩ := by decide

example : validateData [("var_1", Value.vStr "abc"), ("date_var", Value.vDate 5)] =
    Except.error
      [⟨"var_1", "abc", "Input should be a valid integer, unable to parse string as an integer"⟩,
       ⟨"var_2", "\x7bvar_1: abc, date_var: datetime(5)\x7d", "Field required"⟩] := by decide

/-! ## The validate stage (`DataPipeline._validate_inputs`) -/

/-- One emitted error record: the original row data spread together with the
`total_errors` and `error_details` annotations. -/
structure ErrorRow where
  data : Row
  total_errors : Nat
  error_details : String
  deriving DecidableEq

/-- `f"{i}) {error['input']}: {error['msg']}"` — one numbered diagnostic
line. -/
def formatError (i : Nat) (e : FieldError) : String :=
  natToString i ++ ") " ++ e.input ++ ": " ++ e.msg

/-- The numbered diagnostic lines for an error list, numbering from `i`
(the loop enumerates `e.errors()` starting at 1). -/
def numberedFrom (i : Nat) : List FieldError → List String
  | [] => []
  | e :: rest => formatError i e :: numberedFrom (i + 1) rest

/-- The `for i, error in enumerate(e.errors(), 1)` loop body: on each
iteration the numbered line is appended to the running `output_errors`
list, `error_details` is re-joined from it, and one error row is appended
carrying the (fixed) `total = e.error_count()`. -/
def errorLoop (row : Row) (total : Nat) : Nat → List String → List FieldError → List ErrorRow
  | _, _, [] => []
  | i, acc, e :: rest =>
      ⟨row, total, joinSep ".\n" (acc ++ [formatError i e])⟩ ::
        errorLoop row total (i + 1) (acc ++ [formatError i e]) rest

/-- All error rows emitted for one invalid row (`e.error_count()` equals
the length of `e.errors()`). -/
def errorRowsFor (row : Row) (es : List FieldError) : List ErrorRow :=
  errorLoop row es.length 1 [] es

/-- The records the `except` branch never emits / the `try` branch emits
for a single row. -/
def validRecordsOf (r : Row) : List Row :=
  match validateData r with
  | Except.ok d => [modelDumpJson d]
  | Except.error _ => []

/-- The error records one row contributes. -/
def errorRecordsOf (r : Row) : List ErrorRow :=
  match validateData r with
  | Except.ok _ => []
  | Except.error es => errorRowsFor r es

/-- The `for _, row in df.iterrows()` loop of `_validate_inputs`: builds
`data_list` and `errors` in row order. -/
def validateRows : List Row → List Row × List ErrorRow
  | [] => ([], [])
  | r :: rs =>
      let rest := validateRows rs
      match validateData r with
      | Except.ok d => (modelDumpJson d :: rest.1, rest.2)
      | Except.error fes => (rest.1, errorRowsFor r fes ++ rest.2)

/-- The identifier column used to index the validated frame — the source
leaves the template placeholder `id_col = 'insert here'`. -/
def idCol : String := "insert here"

/-- A structural failure of index construction: `KeyError` from
`[r[id_col] for r in data_list]`, or a `pd.to_datetime` parse failure. -/
inductive IndexError where
  | keyError (key : String)
  | indexConstructionError (input : String)
  deriving DecidableEq

/-- The list comprehension `[r[id_col] for r in data_list]`; a missing key
raises `KeyError` before any datetime parsing happens. -/
def collectIds : List Row → Except IndexError (List Value)
  | [] => Except.ok []
  | r :: rs =>
      match rowGet r idCol with
      | none => Except.error (IndexError.keyError idCol)
      | some v =>
          match collectIds rs with
          | Except.ok vs => Except.ok (v :: vs)
          | Except.error e => Except.error e

/-- `pd.to_datetime` on one scalar value. -/
def toDatetimeValue? : Value → Option Nat
  | Value.vDate t => some t
  | Value.vInt (Int.ofNat m) => some m
  | Value.vStr s => datetimeFromString? s
  | _ => none

/-- `pd.to_datetime` over the collected identifier values. -/
def parseIds : List Value → Except IndexError (List Nat)
  | [] => Except.ok []
  | v :: vs =>
      match toDatetimeValue? v with
      | none => Except.error (IndexError.indexConstructionError (pyStr v))
      | some t =>
          match parseIds vs with
          | Except.ok ts => Except.ok (t :: ts)
          | Except.error e => Except.error e

/-- `idx = pd.to_datetime([r[id_col] for r in data_list])`. -/
def buildIndex (data_list : List Row) : Except IndexError (List Nat) :=
  match collectIds data_list with
  | Except.error e => Except.error e
  | Except.ok vals => parseIds vals

/-- The validated output frame: indexed by the identifier values, index
named after the identifier column, identifier column dropped from the
body. -/
structure ValidatedFrame where
  indexName : String
  index : List Nat
  columns : List String
  rows : List Row
  deriving DecidableEq

/-- The error output frame: original column set plus the two annotation
columns. -/
structure ErrorFrame where
  columns : List String
  rows : List ErrorRow
  deriving DecidableEq

/-- Column set of `pd.DataFrame(list_of_dicts)`: union of the dict keys in
first-seen order. -/
def dropColumn (k : String) (r : Row) : Row :=
  r.filter (fun p => !(p.1 == k))

/-- Keep-first deduplication (`df.drop_duplicates()`); the accumulator
holds the values already seen. -/
def keepFirstAux {α : Type} [DecidableEq α] (seen : List α) : List α → List α
  | [] => []
  | x :: xs => if x ∈ seen then keepFirstAux seen xs else x :: keepFirstAux (x :: seen) xs

/-- Keep-first deduplication of a list, preserving first occurrences and
relative order. -/
def keepFirst {α : Type} [DecidableEq α] (l : List α) : List α := keepFirstAux [] l

/-- Column set of a dataframe built from a list of row dicts. -/
def collectColumns (rows : List Row) : List String :=
  keepFirst (rows.flatMap (fun r => r.map (fun p => p.1)))

/-- The summary report printed at the end of `_validate_inputs` (ANSI bold
codes and emoji omitted). -/
def validationSummary (ef : ErrorFrame) : String :=
  let total := (ef.rows.map (fun e => e.total_errors)).sum
  if 0 < total then
    natToString total ++
      " inputs have failed validation for insert reference datasets. Please investigate further."
  else
    "All rows passed validation successfully for insert reference datasets."

/-- `DataPipeline._validate_inputs`: validate each row, build the validated
frame (indexed by the identifier column, which is dropped from the body)
and the error frame (original columns plus `total_errors` and
`error_details`), then produce the summary.  Index construction failures
propagate; everything row-level is downgraded to error records. -/
def validateInputsCore (df : DataFrame) :
    Except IndexError (ValidatedFrame × ErrorFrame × String) :=
  let pair := validateRows df.rows
  match buildIndex pair.1 with
  | Except.error e => Except.error e
  | Except.ok idx =>
      let vcols := (collectColumns pair.1).filter (fun c => !(c == idCol))
      let vf : ValidatedFrame := ⟨idCol, idx, vcols, pair.1.map (dropColumn idCol)⟩
      let ecols := df.columns ++ ["total_errors", "error_details"]
      let ef : ErrorFrame := ⟨ecols, pair.2⟩
      Except.ok (vf, ef, validationSummary ef)

/-- `DataPipeline._clean_data`: `df.drop_duplicates()` — removes exact
duplicate rows, keeping first occurrences. -/
def cleanData (df : DataFrame) : DataFrame :=
  ⟨df.columns, keepFirst df.rows⟩

example : validateInputsCore ⟨["var_1", "var_2", "date_var"],
    [[("var_1", Value.vInt 1), ("var_2", Value.vInt 2), ("date_var", Value.vDate 0)]]⟩ =
    Except.error (IndexError.keyError "insert here") := by decide

/-! ## The load stage (`DataPipeline._load_data`) and orchestration -/

/-- The filesystem visible to the loader: resolved paths mapped to the
tabular content a reader would produce. -/
abbrev FileSystem := List (String × DataFrame)

/-- Path existence / content lookup (`Path.exists` + the readers). -/
def lookupFile : FileSystem → String → Option DataFrame
  | [], _ => none
  | (p, df) :: rest, q => if p = q then some df else lookupFile rest q

/-- Index of the last occurrence of a character. -/
def lastIndexOfGo (c : Char) : List Char → Nat → Option Nat → Option Nat
  | [], _, best => best
  | x :: xs, i, best => lastIndexOfGo c xs (i + 1) (if x = c then some i else best)

/-- `pathlib.Path(p).suffix`: the extension of the final path component,
non-empty exactly when the last dot sits strictly inside the name. -/
def pathSuffix (p : String) : String :=
  let name := (splitOnChar '/' p.data).getLastD []
  match lastIndexOfGo '.' name 0 none with
  | none => ""
  | some i => if 0 < i ∧ i + 1 < name.length then String.mk (name.drop i) else ""

/-- ASCII lower-casing of one character (`str.lower()` on extension
characters). -/
def asciiLower (c : Char) : Char :=
  if 65 ≤ c.toNat ∧ c.toNat ≤ 90 then Char.ofNat (c.toNat + 32) else c

/-- ASCII lower-casing of a string. -/
def lowerString (s : String) : String := String.mk (s.data.map asciiLower)

/-- The reader options mapping (`excel_params`); the source only ever
carries a `parse_dates` column list. -/
structure ExcelParams where
  parse_dates : List String
  deriving DecidableEq

/-- The default options: `{'parse_dates': ['Start', 'Finish']}`. -/
def defaultExcelParams : ExcelParams := ⟨["Start", "Finish"]⟩

/-- Which third-party reader the load stage dispatched to. -/
inductive ReaderKind where
  | excel
  | csv
  deriving DecidableEq

/-- Record of the reader invocation: which reader, on which path, with
which options. -/
structure ReadCall where
  reader : ReaderKind
  path : String
  params : ExcelParams
  deriving DecidableEq

/-- A failure of the load stage. -/
inductive LoadError where
  | fileNotFound (path : String)
  | unsupportedType (suffix : String) (path : String)
  deriving DecidableEq

/-- The message the load stage raises with. -/
def loadErrorMsg : LoadError → String
  | LoadError.fileNotFound p => "File not found at " ++ p
  | LoadError.unsupportedType s p => "Unsupported file type: " ++ s ++ " at " ++ p

/-- `DataPipeline._load_data` minus the attribute write: existence check,
extension dispatch, reader invocation. -/
def loadDataCore (fs : FileSystem) (path : String) (params : ExcelParams) :
    Except LoadError (DataFrame × ReadCall) :=
  match lookupFile fs path with
  | none => Except.error (LoadError.fileNotFound path)
  | some df =>
      let sfx := lowerString (pathSuffix path)
      if sfx = ".xls" ∨ sfx = ".xlsx" then
        Except.ok (df, ⟨ReaderKind.excel, path, params⟩)
      else if sfx = ".csv" then
        Except.ok (df, ⟨ReaderKind.csv, path, params⟩)
      else
        Except.error (LoadError.unsupportedType sfx path)

/-- The four dataframe attributes initialised to blanks in `__init__` and
replaced stage by stage. -/
structure PipelineState where
  raw_data : Option DataFrame
  validated_data : Option ValidatedFrame
  transformed_data : Option ValidatedFrame
  input_data_errors : Option ErrorFrame
  deriving DecidableEq

/-- The `DataPipeline` object: configuration plus held state. -/
structure DataPipeline where
  file_name : String
  input_dir_path : String
  excel_params : ExcelParams
  full_file_path : String
  state : PipelineState
  deriving DecidableEq

/-- `a / b` on paths. -/
def joinPath (a b : String) : String := a ++ "/" ++ b

/-- `DataPipeline.__init__`: stores the configuration, resolves
`Path.cwd() / input_dir_path / file_name` once, defaults the reader
options, and leaves all four dataframes unset. -/
def DataPipeline.init (cwd file_name input_dir_path : String)
    (excel_params : Option ExcelParams) : DataPipeline :=
  { file_name := file_name
    input_dir_path := input_dir_path
    excel_params := excel_params.getD defaultExcelParams
    full_file_path := joinPath (joinPath cwd input_dir_path) file_name
    state := ⟨none, none, none, none⟩ }

/-- `self._load_data()`: the dispatch of `loadDataCore`, plus the
`self.raw_data = df` write on success. -/
def DataPipeline.loadData (p : DataPipeline) (fs : FileSystem) :
    Except LoadError (DataFrame × ReadCall × DataPipeline) :=
  match loadDataCore fs p.full_file_path p.excel_params with
  | Except.error e => Except.error e
  | Except.ok (df, call) =>
      Except.ok (df, call, { p with state := { p.state with raw_data := some df } })

/-- A failure propagating out of `process()`. -/
inductive PipelineError where
  | loadErr (e : LoadError)
  | indexErr (e : IndexError)
  deriving DecidableEq

/-- `process()`: load → clean → validate → transform, in order, ending in a
bare `return` (Python `None`) despite the `pd.DataFrame` annotation.  A
raise carries the pipeline object as it stood at that point. -/
def DataPipeline.process (p : DataPipeline) (fs : FileSystem) :
    Except (PipelineError × DataPipeline) (Option ValidatedFrame × DataPipeline) :=
  match p.loadData fs with
  | Except.error e => Except.error (PipelineError.loadErr e, p)
  | Except.ok (raw, _, p1) =>
      match validateInputsCore (cleanData raw) with
      | Except.error e => Except.error (PipelineError.indexErr e, p1)
      | Except.ok (vf, ef, _) =>
          let p2 := { p1 with state :=
            { p1.state with input_data_errors := some ef, validated_data := some vf } }
          let p3 := { p2 with state := { p2.state with transformed_data := some vf } }
          Except.ok (none, p3)

/-! ## The export stage (`DataPipeline.export_data`) -/

/-- The payload of one sheet. -/
inductive SheetData where
  | errorSheet (ef : ErrorFrame)
  | validatedSheet (vf : ValidatedFrame)
  deriving DecidableEq

/-- One entry of `data_to_export`. -/
structure ExportItem where
  sheet_name : String
  description : String
  payload : SheetData
  deriving DecidableEq

/-- The observable outcome of `export_data` (which message path was
taken). -/
inductive ExportOutcome where
  | noneSelected
  | noAvailableData
  | success (descriptions : List String) (outputFile : String)
  deriving DecidableEq

/-- A filesystem mutation performed by `export_data`. -/
inductive FsEffect where
  | mkdir (path : String)
  | writeWorkbook (path : String) (sheets : List (String × SheetData))
  deriving DecidableEq

/-- `input_errors_exist`: flag requested, attribute set and non-empty. -/
def errorsAvailable (p : DataPipeline) : Bool :=
  match p.state.input_data_errors with
  | some ef => !ef.rows.isEmpty
  | none => false

/-- `validated_data_exist`: flag requested, attribute set and non-empty. -/
def validatedAvailable (p : DataPipeline) : Bool :=
  match p.state.validated_data with
  | some vf => !vf.rows.isEmpty
  | none => false

/-- The errors entry of `data_to_export`, present only when selected and
available. -/
def errorItems (p : DataPipeline) (export_errors : Bool) : List ExportItem :=
  if export_errors && errorsAvailable p then
    match p.state.input_data_errors with
    | some ef => [⟨"Input Data Errors", "Input Data Errors", SheetData.errorSheet ef⟩]
    | none => []
  else []

/-- The validated entry of `data_to_export`. -/
def validatedItems (p : DataPipeline) (export_validated : Bool) : List ExportItem :=
  if export_validated && validatedAvailable p then
    match p.state.validated_data with
    | some vf => [⟨"Validated Data", "Validated Data", SheetData.validatedSheet vf⟩]
    | none => []
  else []

/-- `export_data`: assemble `data_to_export`; when nothing is selected or
available return one of the two no-op reports without touching the
filesystem; otherwise create the output directory and write one workbook
with one sheet per selected set (directory creation and the write are
modelled as always succeeding — the OS-level failure branches only report
and return). -/
def DataPipeline.exportData (p : DataPipeline) (cwd output_file_name : String)
    (export_errors export_validated : Bool) (output_folder : String) :
    ExportOutcome × List FsEffect :=
  let items := errorItems p export_errors ++ validatedItems p export_validated
  if items.isEmpty then
    if export_errors = false ∧ export_validated = false then
      (ExportOutcome.noneSelected, [])
    else
      (ExportOutcome.noAvailableData, [])
  else
    let output_dir := joinPath cwd output_folder
    let output_file := joinPath output_dir output_file_name
    (ExportOutcome.success (items.map (fun it => it.description)) output_file,
     [FsEffect.mkdir output_dir,
      FsEffect.writeWorkbook output_file (items.map (fun it => (it.sheet_name, it.payload)))])

example : lowerString (pathSuffix "cwd/data/Report.XLSX") = ".xlsx" := by decide
example : pathSuffix "cwd/data/.bashrc" = "" := by decide
example : pathSuffix "cwd/data/archive" = "" := by decide
example : pathSuffix "cwd/data/a.tar.gz" = ".gz" := by decide

/-! ## Helper lemmas -/

/-- A pydantic `ValidationError` always carries at least one field error. -/
lemma validateData_error_pos (r : Row) (es : List FieldError)
    (h : validateData r = Except.error es) : 1 ≤ es.length := by
  cases h1 : checkIntField "var_1" r <;>
    cases h2 : checkFloatField "var_2" r <;>
      cases h3 : checkDateField "date_var" r <;>
        simp [validateData, h1, h2, h3, errsOf] at h <;>
          simp [← h]

/-- The error loop emits exactly one record per field error. -/
lemma errorLoop_length (row : Row) (total : Nat) :
    ∀ (es : List FieldError) (i : Nat) (acc : List String),
      (errorLoop row total i acc es).length = es.length := by
  intro es
  induction es with
  | nil => intro i acc; rfl
  | cons e rest ih => intro i acc; simp [errorLoop, ih]

/-- Every record the error loop emits carries the loop's fixed total and
the original row. -/
lemma errorLoop_fields (row : Row) (total : Nat) :
    ∀ (es : List FieldError) (i : Nat) (acc : List String),
      ∀ x ∈ errorLoop row total i acc es, x.total_errors = total ∧ x.data = row := by
  intro es
  induction es with
  | nil => intro i acc x hx; simp [errorLoop] at hx
  | cons e rest ih =>
      intro i acc x hx
      simp only [errorLoop, List.mem_cons] at hx
      rcases hx with h | h
      · subst h; exact ⟨rfl, rfl⟩
      · exact ih _ _ x h

/-- The k-th record of the error loop carries the cumulative message built
from the first `k + 1` numbered lines (after the accumulator). -/
lemma errorLoop_getElem (row : Row) (total : Nat) :
    ∀ (es : List FieldError) (i : Nat) (acc : List String) (k : Nat), k < es.length →
      (errorLoop row total i acc es)[k]? =
        some ⟨row, total, joinSep ".\n" (acc ++ (numberedFrom i es).take (k + 1))⟩ := by
  intro es
  induction es with
  | nil => intro i acc k hk; simp at hk
  | cons e rest ih =>
      intro i acc k hk
      cases k with
      | zero => simp [errorLoop, numberedFrom]
      | succ k =>
          have hk2 : k < rest.length := by simpa using hk
          have := ih (i + 1) (acc ++ [formatError i e]) k hk2
          simp [errorLoop, numberedFrom, this, List.append_assoc]

/-- The row loop of `_validate_inputs` is the concatenation of the per-row
contributions, in row order. -/
lemma validateRows_eq (rows : List Row) :
    validateRows rows = (rows.flatMap validRecordsOf, rows.flatMap errorRecordsOf) := by
  induction rows with
  | nil => rfl
  | cons r rs ih =>
      cases h : validateData r <;>
        simp [validateRows, h, ih, validRecordsOf, errorRecordsOf]

/-- Keep-first deduplication only ever removes rows. -/
lemma keepFirstAux_sublist {α : Type} [DecidableEq α] :
    ∀ (l seen : List α), List.Sublist (keepFirstAux seen l) l := by
  intro l
  induction l with
  | nil => intro seen; simp [keepFirstAux]
  | cons x xs ih =>
      intro seen
      simp only [keepFirstAux]
      by_cases hx : x ∈ seen
      · rw [if_pos hx]; exact (ih seen).cons x
      · rw [if_neg hx]; exact (ih (x :: seen)).cons₂ x

/-- Nothing in the seen accumulator is re-emitted. -/
lemma keepFirstAux_not_mem_seen {α : Type} [DecidableEq α] :
    ∀ (l seen : List α) (y : α), y ∈ keepFirstAux seen l → y ∉ seen := by
  intro l
  induction l with
  | nil => intro seen y hy; simp [keepFirstAux] at hy
  | cons x xs ih =>
      intro seen y hy
      simp only [keepFirstAux] at hy
      by_cases hx : x ∈ seen
      · rw [if_pos hx] at hy; exact ih seen y hy
      · rw [if_neg hx] at hy
        rcases List.mem_cons.mp hy with h | h
        · subst h; exact hx
        · intro hseen
          exact ih (x :: seen) y h (List.mem_cons_of_mem x hseen)

/-- Keep-first deduplication emits no duplicates. -/
lemma keepFirstAux_nodup {α : Type} [DecidableEq α] :
    ∀ (l seen : List α), (keepFirstAux seen l).Nodup := by
  intro l
  induction l with
  | nil => intro seen; simp [keepFirstAux]
  | cons x xs ih =>
      intro seen
      simp only [keepFirstAux]
      by_cases hx : x ∈ seen
      · rw [if_pos hx]; exact ih seen
      · rw [if_neg hx]
        refine List.nodup_cons.mpr ⟨?_, ih (x :: seen)⟩
        intro hmem
        exact keepFirstAux_not_mem_seen xs (x :: seen) x hmem (List.mem_cons_self x seen)

/-- On a duplicate-free list disjoint from the accumulator, keep-first
deduplication is the identity. -/
lemma keepFirstAux_of_nodup {α : Type} [DecidableEq α] :
    ∀ (l seen : List α), l.Nodup → (∀ x ∈ l, x ∉ seen) → keepFirstAux seen l = l := by
  intro l
  induction l with
  | nil => intro seen _ _; rfl
  | cons x xs ih =>
      intro seen hnd hdisj
      have hx : x ∉ seen := hdisj x (List.mem_cons_self x xs)
      simp only [keepFirstAux, if_neg hx]
      congr 1
      refine ih (x :: seen) (List.nodup_cons.mp hnd).2 ?_
      intro y hy hmem
      rcases List.mem_cons.mp hmem with h | h
      · subst h; exact (List.nodup_cons.mp hnd).1 hy
      · exact hdisj y (List.mem_cons_of_mem x hy) h

/-- Every element of the input survives keep-first deduplication unless it
was already seen. -/
lemma mem_keepFirstAux {α : Type} [DecidableEq α] :
    ∀ (l seen : List α) (x : α), x ∈ l → x ∈ keepFirstAux seen l ∨ x ∈ seen := by
  intro l
  induction l with
  | nil => intro seen x hx; simp at hx
  | cons a as ih =>
      intro seen x hx
      simp only [keepFirstAux]
      by_cases ha : a ∈ seen
      · rw [if_pos ha]
        rcases List.mem_cons.mp hx with h | h
        · subst h; exact Or.inr ha
        · exact ih seen x h
      · rw [if_neg ha]
        rcases List.mem_cons.mp hx with h | h
        · subst h; exact Or.inl (List.mem_cons_self _ _)
        · rcases ih (a :: seen) x h with h2 | h2
          · exact Or.inl (List.mem_cons_of_mem _ h2)
          · rcases List.mem_cons.mp h2 with h3 | h3
            · subst h3; exact Or.inl (List.mem_cons_self _ _)
            · exact Or.inr h3

/-! ## Claim theorems -/

/-- A fully schema-valid row: every field coerces. -/
def goodRow : Row :=
  [("var_1", Value.vInt 1), ("var_2", Value.vInt 2), ("date_var", Value.vDate 0)]

/-- Claim C1: the claim asserts that the only failure propagating out of
the validate stage is the identifier field being unparsable as the index
type.  The code contradicts this: the placeholder identifier column
`'insert here'` is not a field of the `Data` model, so a cleaned table
containing a single fully valid row (no malformed field at all) makes
index construction raise a `KeyError`-kind missing-column failure — not an
index-type parse failure.  This theorem evaluates the stage at that
failing input. -/
theorem validate_inputs_keyerror_on_valid_row :
    validateInputsCore ⟨["var_1", "var_2", "date_var"], [goodRow]⟩ =
      Except.error (IndexError.keyError "insert here") := by decide

/-- Claim C2: the row loop's outputs are exactly the concatenated per-row
contributions, and every row contributes either exactly one validated
record and no error record, or no validated record and at least one error
record — never both, never neither. -/
theorem validate_partitions_rows (rows : List Row) (r : Row) :
    validateRows rows = (rows.flatMap validRecordsOf, rows.flatMap errorRecordsOf) ∧
    (((validRecordsOf r).length = 1 ∧ errorRecordsOf r = []) ∨
     (validRecordsOf r = [] ∧ 1 ≤ (errorRecordsOf r).length)) := by
  refine ⟨validateRows_eq rows, ?_⟩
  cases h : validateData r with
  | ok d => exact Or.inl (by simp [validRecordsOf, errorRecordsOf, h])
  | error es =>
      refine Or.inr ⟨by simp [validRecordsOf, h], ?_⟩
      have hlen : (errorRecordsOf r).length = es.length := by
        simp [errorRecordsOf, h, errorRowsFor, errorLoop_length]
      rw [hlen]
      exact validateData_error_pos r es h

/-- Claim C3: a row whose validation fails with `K` field errors yields
exactly `K` error records, every one of which carries the final count `K`
in `total_errors` (`e.error_count()` is taken once, not a running partial
count) together with the row's original data. -/
theorem error_rows_count_and_total (r : Row) (es : List FieldError)
    (h : validateData r = Except.error es) :
    1 ≤ es.length ∧
    (errorRowsFor r es).length = es.length ∧
    ∀ x ∈ errorRowsFor r es, x.total_errors = es.length ∧ x.data = r :=
  ⟨validateData_error_pos r es h,
   errorLoop_length r es.length es 1 [],
   fun x hx => errorLoop_fields r es.length es 1 [] x hx⟩

/-- A row failing two field checks: `var_1` holds an unparsable string and
the required `var_2` is absent. -/
def badRow : Row := [("var_1", Value.vStr "abc"), ("date_var", Value.vDate 5)]

/-- The two field errors pydantic reports for `badRow`, in declaration
order. -/
def badErrs : List FieldError :=
  [⟨"var_1", "abc", "Input should be a valid integer, unable to parse string as an integer"⟩,
   ⟨"var_2", pyStrRow badRow, "Field required"⟩]

/-- Witness for C3 at a concrete row with two failing fields. -/
theorem error_rows_count_and_total_witness :
    validateData badRow = Except.error badErrs ∧
    1 ≤ badErrs.length ∧
    (errorRowsFor badRow badErrs).length = badErrs.length :=
  ⟨by decide, (error_rows_count_and_total badRow badErrs (by decide)).1,
   (error_rows_count_and_total badRow badErrs (by decide)).2.1⟩

/-- Claim C4: the k-th error record emitted for a failing row carries the
row's original uncoerced data and a message equal to the join of the first
`k + 1` numbered diagnostic lines `"{n}) {offending_value}: {reason}"`
(1-based, in schema field-declaration order), so each successive record's
message extends the previous one. -/
theorem error_rows_cumulative_details (r : Row) (es : List FieldError) (k : Nat)
    (_h : validateData r = Except.error es) (hk : k < es.length) :
    (errorRowsFor r es)[k]? =
      some ⟨r, es.length, joinSep ".\n" ((numberedFrom 1 es).take (k + 1))⟩ :=
  errorLoop_getElem r es.length es 1 [] k hk

/-- Witness for C4: the second record for `badRow` extends the first
record's message. -/
theorem error_rows_cumulative_details_witness :
    validateData badRow = Except.error badErrs ∧
    1 < badErrs.length ∧
    (errorRowsFor badRow badErrs)[1]? =
      some ⟨badRow, badErrs.length, joinSep ".\n" ((numberedFrom 1 badErrs).take 2)⟩ :=
  ⟨by decide, by decide,
   error_rows_cumulative_details badRow badErrs 1 (by decide) (by decide)⟩

/-- Claim C5: an empty cleaned table is validated without raising into an
empty validated frame and an empty error frame whose column set is exactly
the input columns plus `total_errors` and `error_details`, with the
all-clear summary. -/
theorem validate_empty_table (cols : List String) :
    validateInputsCore ⟨cols, []⟩ =
      Except.ok (⟨idCol, [], [], []⟩,
        ⟨cols ++ ["total_errors", "error_details"], []⟩,
        "All rows passed validation successfully for insert reference datasets.") := by
  rfl

/-- Claim C6: cleaning (`drop_duplicates`) is idempotent; it only removes
rows (preserving relative order), leaves no duplicates, and keeps an
occurrence of every input row. -/
theorem clean_data_idempotent (df : DataFrame) :
    cleanData (cleanData df) = cleanData df ∧
    List.Sublist (cleanData df).rows df.rows ∧
    List.Nodup (cleanData df).rows ∧
    ∀ r, r ∈ df.rows → r ∈ (cleanData df).rows := by
  refine ⟨?_, keepFirstAux_sublist df.rows [], keepFirstAux_nodup df.rows [], ?_⟩
  · show (⟨df.columns, keepFirst (keepFirst df.rows)⟩ : DataFrame) = ⟨df.columns, keepFirst df.rows⟩
    have h := keepFirstAux_of_nodup (keepFirst df.rows) []
      (keepFirstAux_nodup df.rows []) (by intro x hx; simp)
    rw [keepFirst, h]
  · intro r hr
    rcases mem_keepFirstAux df.rows [] r hr with h | h
    · exact h
    · simp at h

/-- A table with an exact duplicate row, for the C6 witness. -/
def dupFrame : DataFrame :=
  ⟨["var_1"], [[("var_1", Value.vInt 1)], [("var_1", Value.vInt 1)], [("var_1", Value.vInt 2)]]⟩

/-- Witness for C6 at a concrete table containing duplicates. -/
theorem clean_data_idempotent_witness :
    cleanData (cleanData dupFrame) = cleanData dupFrame ∧
    [("var_1", Value.vInt 1)] ∈ (cleanData dupFrame).rows :=
  ⟨(clean_data_idempotent dupFrame).1,
   (clean_data_idempotent dupFrame).2.2.2 [("var_1", Value.vInt 1)] (by decide)⟩

/-- Claim C7: for an existing resolved path, the load stage routes
lower-cased `.xls`/`.xlsx` extensions to the tabular-sheet reader and
`.csv` to the delimited-text reader, both with the caller-supplied options
mapping; any other extension fails with an unsupported-format error naming
the offending extension and the path. -/
theorem load_data_dispatch (fs : FileSystem) (path : String) (params : ExcelParams)
    (df : DataFrame) (hex : lookupFile fs path = some df) :
    ((lowerString (pathSuffix path) = ".xls" ∨ lowerString (pathSuffix path) = ".xlsx") →
      loadDataCore fs path params = Except.ok (df, ⟨ReaderKind.excel, path, params⟩)) ∧
    (lowerString (pathSuffix path) = ".csv" →
      loadDataCore fs path params = Except.ok (df, ⟨ReaderKind.csv, path, params⟩)) ∧
    (lowerString (pathSuffix path) ≠ ".xls" → lowerString (pathSuffix path) ≠ ".xlsx" →
     lowerString (pathSuffix path) ≠ ".csv" →
      loadDataCore fs path params =
        Except.error (LoadError.unsupportedType (lowerString (pathSuffix path)) path) ∧
      loadErrorMsg (LoadError.unsupportedType (lowerString (pathSuffix path)) path) =
        "Unsupported file type: " ++ lowerString (pathSuffix path) ++ " at " ++ path) := by
  refine ⟨fun hsfx => ?_, fun hsfx => ?_, fun h1 h2 h3 => ?_⟩
  · simp only [loadDataCore, hex]
    rw [if_pos hsfx]
  · have hno : ¬(lowerString (pathSuffix path) = ".xls" ∨
        lowerString (pathSuffix path) = ".xlsx") := by
      rintro (hcase | hcase) <;> rw [hsfx] at hcase <;> exact absurd hcase (by decide)
    simp only [loadDataCore, hex]
    rw [if_neg hno, if_pos hsfx]
  · have hno : ¬(lowerString (pathSuffix path) = ".xls" ∨
        lowerString (pathSuffix path) = ".xlsx") := fun hcase => hcase.elim h1 h2
    constructor
    · simp only [loadDataCore, hex]
      rw [if_neg hno, if_neg h3]
    · rfl

/-- An empty table as file content, for the loader witness. -/
def dfW : DataFrame := ⟨[], []⟩

/-- A filesystem containing one spreadsheet with an upper-case extension. -/
def fsW : FileSystem := [("cwd/data/Report.XLSX", dfW)]

/-- Witness for C7: an upper-case `.XLSX` file routes to the tabular-sheet
reader with the supplied options. -/
theorem load_data_dispatch_witness :
    lookupFile fsW "cwd/data/Report.XLSX" = some dfW ∧
    lowerString (pathSuffix "cwd/data/Report.XLSX") = ".xlsx" ∧
    loadDataCore fsW "cwd/data/Report.XLSX" defaultExcelParams =
      Except.ok (dfW, ⟨ReaderKind.excel, "cwd/data/Report.XLSX", defaultExcelParams⟩) :=
  ⟨by decide, by decide,
   (load_data_dispatch fsW "cwd/data/Report.XLSX" defaultExcelParams dfW (by decide)).1
     (Or.inr (by decide))⟩

/-- Claim C8: with a freshly constructed pipeline whose resolved source
path does not exist, `process()` fails fast with the not-found error
naming the resolved path, the raised state is the untouched pipeline, and
all four held artifacts are still unset. -/
theorem process_not_found_no_state (cwd dir name : String) (params : Option ExcelParams)
    (fs : FileSystem) (p : DataPipeline)
    (hp : p = DataPipeline.init cwd name dir params)
    (h : lookupFile fs p.full_file_path = none) :
    p.process fs =
      Except.error (PipelineError.loadErr (LoadError.fileNotFound p.full_file_path), p) ∧
    loadErrorMsg (LoadError.fileNotFound p.full_file_path) =
      "File not found at " ++ p.full_file_path ∧
    p.state.raw_data = none ∧ p.state.validated_data = none ∧
    p.state.transformed_data = none ∧ p.state.input_data_errors = none := by
  refine ⟨?_, rfl, ?_, ?_, ?_, ?_⟩
  · simp [DataPipeline.process, DataPipeline.loadData, loadDataCore, h]
  · rw [hp]; rfl
  · rw [hp]; rfl
  · rw [hp]; rfl
  · rw [hp]; rfl

/-- Witness for C8: missing file on an empty filesystem. -/
theorem process_not_found_no_state_witness :
    (DataPipeline.init "cwd" "missing.csv" "data" none).process [] =
      Except.error (PipelineError.loadErr (LoadError.fileNotFound
          (DataPipeline.init "cwd" "missing.csv" "data" none).full_file_path),
        DataPipeline.init "cwd" "missing.csv" "data" none) ∧
    (DataPipeline.init "cwd" "missing.csv" "data" none).state.raw_data = none :=
  ⟨(process_not_found_no_state "cwd" "data" "missing.csv" none []
      (DataPipeline.init "cwd" "missing.csv" "data" none) rfl (by decide)).1,
   (process_not_found_no_state "cwd" "data" "missing.csv" none []
      (DataPipeline.init "cwd" "missing.csv" "data" none) rfl (by decide)).2.2.1⟩

/-- Claim C9: export with both selection flags false, or with every
requested result set unset or empty, performs no filesystem effect at all
and reports which of the two no-op cases occurred. -/
theorem export_noop_cases (p : DataPipeline) (cwd ofn folder : String) (ee ev : Bool) :
    (ee = false → ev = false →
      p.exportData cwd ofn ee ev folder = (ExportOutcome.noneSelected, [])) ∧
    ((ee = true ∨ ev = true) →
     (ee = true → errorsAvailable p = false) →
     (ev = true → validatedAvailable p = false) →
      p.exportData cwd ofn ee ev folder = (ExportOutcome.noAvailableData, [])) := by
  constructor
  · intro h1 h2
    subst h1; subst h2
    simp [DataPipeline.exportData, errorItems, validatedItems]
  · intro hor h1 h2
    have he : errorItems p ee = [] := by
      cases ee with
      | false => simp [errorItems]
      | true => simp [errorItems, h1 rfl]
    have hv : validatedItems p ev = [] := by
      cases ev with
      | false => simp [validatedItems]
      | true => simp [validatedItems, h2 rfl]
    have hcond : ¬(ee = false ∧ ev = false) := by
      rcases hor with h | h <;> subst h <;> simp
    simp [DataPipeline.exportData, he, hv, hcond]

/-- A freshly initialised pipeline (all artifacts unset). -/
def pW : DataPipeline := DataPipeline.init "cwd" "f.csv" "data" none

/-- Witness for C9: both no-op cases on a fresh pipeline. -/
theorem export_noop_cases_witness :
    pW.exportData "cwd" "report.xlsx" false false "reporting" =
      (ExportOutcome.noneSelected, []) ∧
    pW.exportData "cwd" "report.xlsx" true false "reporting" =
      (ExportOutcome.noAvailableData, []) :=
  ⟨(export_noop_cases pW "cwd" "report.xlsx" "reporting" false false).1 rfl rfl,
   (export_noop_cases pW "cwd" "report.xlsx" "reporting" true false).2 (Or.inl rfl)
     (fun _ => rfl) (fun hh => absurd hh (by decide))⟩

/-- Claim C10: every non-raising `process()` run returns Python `None`
(never the validated dataframe), while the validated table is available
only through the pipeline's state fields. -/
theorem process_returns_none (p : DataPipeline) (fs : FileSystem)
    (v : Option ValidatedFrame) (q : DataPipeline)
    (h : p.process fs = Except.ok (v, q)) :
    v = none ∧ ∃ vf, q.state.validated_data = some vf ∧ q.state.transformed_data = some vf := by
  unfold DataPipeline.process at h
  cases hl : p.loadData fs with
  | error e => rw [hl] at h; simp at h
  | ok trip =>
      obtain ⟨raw, call, p1⟩ := trip
      rw [hl] at h
      dsimp only at h
      cases hval : validateInputsCore (cleanData raw) with
      | error e => rw [hval] at h; simp at h
      | ok t =>
          obtain ⟨vf, ef, s⟩ := t
          rw [hval] at h
          simp at h
          obtain ⟨h1, h2⟩ := h
          subst h1
          subst h2
          exact ⟨rfl, vf, rfl, rfl⟩

/-- The filesystem for the C10 witness: one empty csv source. -/
def fsW2 : FileSystem := [("cwd/data/f.csv", dfW)]

/-- The pipeline state after a successful run on the empty csv. -/
def qW : DataPipeline :=
  { file_name := "f.csv"
    input_dir_path := "data"
    excel_params := defaultExcelParams
    full_file_path := "cwd/data/f.csv"
    state :=
      { raw_data := some dfW
        validated_data := some ⟨idCol, [], [], []⟩
        transformed_data := some ⟨idCol, [], [], []⟩
        input_data_errors := some ⟨["total_errors", "error_details"], []⟩ } }

/-- Witness for C10: a complete non-raising run returning `None`. -/
theorem process_returns_none_witness :
    pW.process fsW2 = Except.ok ((none : Option ValidatedFrame), qW) ∧
    ((none : Option ValidatedFrame) = none ∧
     ∃ vf, qW.state.validated_data = some vf ∧ qW.state.transformed_data = some vf) :=
  ⟨by decide, process_returns_none pW fsW2 none qW (by decide)⟩
